import Mathlib

/-!
Shallow embedding of the QuantumBot backend core: the authentication
middleware (`verifyToken` in the token manager), the user controllers
(`userSignUp`), the chat-session model (`chat-model.ts`, including the
`pre('save')` hook refreshing `updatedAt`) and the chat controllers
(`generateChatCompletion`, `createChatSession`, `getChatSessions`,
`getChatSessionById`, `addMessageToChatSession`, `deleteChatSessionById`).

Conventions of the embedding:
* Mongo ObjectIds and `Date` values are modelled as `Nat`.
* The current wall-clock time (`Date.now`) is passed explicitly as `now`.
* The external OpenAI completion call is an input of the handler: its
  outcome is an `Except UpstreamErr (Option String)` value holding either
  the transport error or `completion?.data?.choices?.[0]?.message?.content`.
* JavaScript truthiness of strings (`||`, `if (x)`) is modelled by
  `jsFalsy`/`jsOr`: `undefined` is `none` and the empty string is falsy.
* Each Express handler becomes a pure function from the database state and
  the request data to a result record holding the HTTP status, the JSON
  payload fields it writes, and the database state after the handler ran.
-/

namespace QuantumBot

/-- Role of a chat message, from the `chatMessageSchema` enum. -/
inductive Role where
  | user
  | assistant
deriving DecidableEq, Repr

/-- Chat message: `{role, content, timestamp}` from `chatMessageSchema`. -/
structure ChatMessage where
  role : Role
  content : String
  timestamp : Nat
deriving DecidableEq, Repr

/-- User record from `user-model.ts`: name, email, hashed password and the
legacy embedded chat array. -/
structure User where
  id : Nat
  name : String
  email : String
  password : String
  chats : List ChatMessage
deriving DecidableEq, Repr

/-- Chat session from `chatSessionSchema`: owning user id, title, embedded
messages and the two timestamps. -/
structure ChatSession where
  id : Nat
  userId : Nat
  title : String
  messages : List ChatMessage
  createdAt : Nat
  updatedAt : Nat
deriving DecidableEq, Repr

/-- The document store: the `users` collection (embedding legacy chats) and
the `chatsessions` collection. -/
structure DB where
  users : List User
  sessions : List ChatSession
deriving DecidableEq, Repr

/-- JavaScript falsiness for an optional string: `undefined` and `""` are
falsy. -/
def jsFalsy : Option String → Bool
  | none => true
  | some s => s = ""

/-- JavaScript `a || b` on optional strings. -/
def jsOr (a b : Option String) : Option String :=
  if jsFalsy a then b else a

/-- Decoded JWT payload `{id, email}` produced by `createToken` and
recovered by `verifyTokenPayload`. -/
structure JwtPayload where
  id : Nat
  email : String
deriving DecidableEq, Repr

/-- The parts of an inbound request the `verifyToken` middleware reads: the
value of the configured cookie name in `req.signedCookies`, its value in
`req.cookies`, and the `authorization` header. -/
structure AuthReq where
  signedCookie : Option String
  plainCookie : Option String
  authHeader : Option String
deriving DecidableEq, Repr

/-- Outcome of the middleware: either a 401 response with a cause, or
`next()` with the decoded payload attached to `res.locals.jwtData`. -/
inductive AuthResult where
  | unauthenticated (cause : String)
  | authenticated (payload : JwtPayload)
deriving DecidableEq, Repr

/-- Embeds `req.signedCookies?.[cookieName] ?? req.cookies?.[cookieName]`
(nullish coalescing: only `undefined` falls through to the plain cookie). -/
def tokenFromCookie (req : AuthReq) : Option String :=
  match req.signedCookie with
  | some v => some v
  | none => req.plainCookie

/-- Model of JavaScript `String.prototype.split(" ")` (structural on the
character list, so it computes by kernel reduction): fields between single
space separators, empty fields included. -/
def jsSplitSpaceAux : List Char → List Char → List (List Char)
  | [], acc => [acc.reverse]
  | c :: cs, acc => if c = ' ' then acc.reverse :: jsSplitSpaceAux cs [] else jsSplitSpaceAux cs (c :: acc)

/-- JavaScript `s.split(" ")` as a list of strings. -/
def jsSplitSpace (s : String) : List String :=
  (jsSplitSpaceAux s.data []).map String.mk

/-- JavaScript `s.startsWith(p)` (structural model). -/
def jsStartsWith (s p : String) : Bool :=
  p.data.isPrefixOf s.data

/-- Embeds the header branch: `authHeader && authHeader.startsWith("Bearer ")
? authHeader.split(" ")[1] : undefined`. -/
def tokenFromHeader (req : AuthReq) : Option String :=
  match req.authHeader with
  | some h => if jsStartsWith h "Bearer " then (jsSplitSpace h)[1]? else none
  | none => none

/-- Embeds `const token = tokenFromCookie || tokenFromHeader`. -/
def requestToken (req : AuthReq) : Option String :=
  jsOr (tokenFromCookie req) (tokenFromHeader req)

/-- Embeds the `verifyToken` middleware of the token manager. The verifier
(`verifyTokenPayload`, i.e. `jwt.verify` against the process secret) is
passed as a function so the middleware's control flow can be studied for
every verifier behaviour. `if (!token)` rejects both a missing and an
empty-string token without consulting the verifier. -/
def verifyToken (verify : String → Except String JwtPayload) (req : AuthReq) : AuthResult :=
  match requestToken req with
  | none => .unauthenticated "No authentication token provided"
  | some t =>
    if t = "" then .unauthenticated "No authentication token provided"
    else
      match verify t with
      | .ok p => .authenticated p
      | .error e => .unauthenticated e

/-- Mongoose `pre('save')` hook of `chatSessionSchema`: every persist
refreshes `updatedAt` to the current time. -/
def saveSession (s : ChatSession) (now : Nat) : ChatSession :=
  { s with updatedAt := now }

/-- Writing a saved session document back into the collection: mongoose
`save` updates the stored document with the same `_id`. -/
def persistSession (db : DB) (s : ChatSession) : DB :=
  { db with sessions := db.sessions.map (fun t => if t.id == s.id then s else t) }

/-- Writing a saved user document back: `user.save()` updates by `_id`. -/
def persistUser (db : DB) (u : User) : DB :=
  { db with users := db.users.map (fun t => if t.id == u.id then u else t) }

/-- Embeds `ChatSession.findOne({ _id: sessionId, userId })`: the lookup is
scoped by both the session id and the caller's user id. -/
def findSession (db : DB) (sid uid : Nat) : Option ChatSession :=
  db.sessions.find? (fun s => s.id == sid && s.userId == uid)

/-- Embeds `User.findById(userId)`. -/
def findUser (db : DB) (uid : Nat) : Option User :=
  db.users.find? (fun u => u.id == uid)

/-- Upstream failure raised by `openai.createChatCompletion`: the HTTP
status of `err.response` (when any) and the error payload/message. -/
structure UpstreamErr where
  status : Option Nat
  message : String
deriving DecidableEq, Repr

/-- The `cause` string of the 500 response built in the handlers' catch
block: upstream 401 is mapped to a distinct actionable cause, anything
else passes the upstream payload/message through. -/
def upstreamCause (e : UpstreamErr) : String :=
  if e.status == some 401 then "Invalid OpenAI credentials" else e.message

/-- Model of JavaScript `String.prototype.trim`: strip whitespace from both
ends of the string (structural, so it computes by kernel reduction). -/
def jsTrim (s : String) : String :=
  String.mk (((s.data.dropWhile Char.isWhitespace).reverse.dropWhile Char.isWhitespace).reverse)

/-- Embeds `completion?.data?.choices?.[0]?.message?.content?.trim() || ""`:
absent content becomes `""`, present content is trimmed. -/
def assistantContentOf : Option String → String
  | some c => jsTrim c
  | none => ""

/-- Result of `generateChatCompletion` (legacy flow): status, JSON fields
and the database after the handler. -/
structure GenerateResult where
  status : Nat
  message : String
  cause : Option String
  db : DB
  chats : Option (List ChatMessage)
deriving DecidableEq, Repr

/-- Embeds `generateChatCompletion` from the chat controllers. `auth` is
`res.locals.jwtData?.id`, `upstream` the outcome of the OpenAI call. The
user message is pushed onto the in-memory document before the upstream
call, but `user.save()` only runs after a successful call. -/
def generateChatCompletion (db : DB) (auth : Option Nat) (message : String)
    (upstream : Except UpstreamErr (Option String)) (now : Nat) : GenerateResult :=
  match auth with
  | none => ⟨401, "Token missing or invalid", none, db, none⟩
  | some userId =>
    match findUser db userId with
    | none => ⟨401, "User not registered", none, db, none⟩
    | some user =>
      let user := { user with chats := user.chats ++ [⟨.user, message, now⟩] }
      match upstream with
      | .error e => ⟨500, "OpenAI API call failed", some (upstreamCause e), db, none⟩
      | .ok content =>
        let assistantContent := assistantContentOf content
        let user :=
          if assistantContent ≠ "" then
            { user with chats := user.chats ++ [⟨.assistant, assistantContent, now⟩] }
          else user
        ⟨200, "OK", none, persistUser db user, some user.chats⟩

/-- Result of `createChatSession`. -/
structure CreateSessionResult where
  status : Nat
  message : String
  db : DB
  session : Option ChatSession
deriving DecidableEq, Repr

/-- JavaScript `title || "New Chat"` from `createChatSession`: an absent or
empty title falls back to the default. -/
def titleOrDefault : Option String → String
  | some t => if t = "" then "New Chat" else t
  | none => "New Chat"

/-- The document built by `new ChatSession({userId, title: title || "New
Chat", messages: []})`: `createdAt` and `updatedAt` take their `Date.now`
schema defaults. -/
def newChatSession (uid : Nat) (title : String) (freshId now : Nat) : ChatSession :=
  ⟨freshId, uid, title, [], now, now⟩

/-- Embeds `createChatSession`: no lookup of the user record happens; the
session is built from the token's id and saved (insert of a new document,
with the `pre('save')` hook refreshing `updatedAt`). -/
def createChatSession (db : DB) (auth : Option Nat) (title : Option String)
    (freshId now : Nat) : CreateSessionResult :=
  match auth with
  | none => ⟨401, "Token missing or invalid", db, none⟩
  | some userId =>
    let session := saveSession (newChatSession userId (titleOrDefault title) freshId now) now
    ⟨201, "Chat session created", { db with sessions := db.sessions ++ [session] }, some session⟩

/-- Result of `deleteChatSessionById`. -/
structure DeleteSessionResult where
  status : Nat
  message : String
  db : DB
  sessionId : Option Nat
deriving DecidableEq, Repr

/-- Removal of the first list entry matching a predicate, the effect of
`findOneAndDelete` on the collection. -/
def eraseFirst (p : ChatSession → Bool) : List ChatSession → List ChatSession
  | [] => []
  | x :: xs => if p x then xs else x :: eraseFirst p xs

/-- Embeds `deleteChatSessionById`: `findOneAndDelete({_id: sessionId,
userId})`, 404 when nothing matched. -/
def deleteChatSessionById (db : DB) (auth : Option Nat) (sid : Nat) : DeleteSessionResult :=
  match auth with
  | none => ⟨401, "Token missing or invalid", db, none⟩
  | some userId =>
    match findSession db sid userId with
    | none => ⟨404, "Chat session not found or already deleted", db, none⟩
    | some _ =>
      ⟨200, "Chat session deleted successfully",
        { db with sessions := eraseFirst (fun s => s.id == sid && s.userId == userId) db.sessions },
        some sid⟩

/-- Summary shape produced by `.select("title createdAt updatedAt")`: the
`_id` field is always included by mongoose; `messages` is projected away. -/
structure SessionSummary where
  id : Nat
  title : String
  createdAt : Nat
  updatedAt : Nat
deriving DecidableEq, Repr

/-- Projection of a stored session to its list-response summary. -/
def toSummary (s : ChatSession) : SessionSummary :=
  ⟨s.id, s.title, s.createdAt, s.updatedAt⟩

/-- Result of `getChatSessions`. -/
structure ListSessionsResult where
  status : Nat
  message : String
  sessions : Option (List SessionSummary)
deriving DecidableEq, Repr

/-- Embeds `ChatSession.find({userId}).sort({updatedAt: -1}).select("title
createdAt updatedAt")`: filter by owner, sort by `updatedAt` descending,
project to summaries. -/
def listSessionSummaries (db : DB) (uid : Nat) : List SessionSummary :=
  (((db.sessions.filter (fun s => s.userId == uid)).insertionSort
      (fun a b => b.updatedAt ≤ a.updatedAt)).map toSummary)

/-- Embeds `getChatSessions`. -/
def getChatSessions (db : DB) (auth : Option Nat) : ListSessionsResult :=
  match auth with
  | none => ⟨401, "Token missing or invalid", none⟩
  | some userId => ⟨200, "OK", some (listSessionSummaries db userId)⟩

/-- Result of `getChatSessionById`. -/
structure GetSessionResult where
  status : Nat
  message : String
  session : Option ChatSession
deriving DecidableEq, Repr

/-- Embeds `getChatSessionById`: `findOne({_id: sessionId, userId})`, 404
when nothing matched. -/
def getChatSessionById (db : DB) (auth : Option Nat) (sid : Nat) : GetSessionResult :=
  match auth with
  | none => ⟨401, "Token missing or invalid", none⟩
  | some userId =>
    match findSession db sid userId with
    | none => ⟨404, "Chat session not found", none⟩
    | some session => ⟨200, "OK", some session⟩

/-- Result of `addMessageToChatSession`. -/
structure AddMessageResult where
  status : Nat
  message : String
  cause : Option String
  db : DB
  session : Option ChatSession
deriving DecidableEq, Repr

/-- Embeds `addMessageToChatSession`: fetch the owned session, push the
user message onto the in-memory document, call the upstream provider, push
the assistant message only when the trimmed content is non-empty, and only
then run `session.save()`. On upstream failure the handler returns 500
before any save. -/
def addMessageToChatSession (db : DB) (auth : Option Nat) (sid : Nat) (message : String)
    (upstream : Except UpstreamErr (Option String)) (now : Nat) : AddMessageResult :=
  match auth with
  | none => ⟨401, "Token missing or invalid", none, db, none⟩
  | some userId =>
    match findSession db sid userId with
    | none => ⟨404, "Chat session not found", none, db, none⟩
    | some session =>
      let session := { session with messages := session.messages ++ [⟨.user, message, now⟩] }
      match upstream with
      | .error e => ⟨500, "OpenAI API call failed", some (upstreamCause e), db, none⟩
      | .ok content =>
        let assistantContent := assistantContentOf content
        let session :=
          if assistantContent ≠ "" then
            { session with messages := session.messages ++ [⟨.assistant, assistantContent, now⟩] }
          else session
        let saved := saveSession session now
        ⟨200, "Message added", none, persistSession db saved, some saved⟩

/-- Result of `userSignUp`. -/
structure SignUpResult where
  status : Nat
  message : String
  cause : Option String
  db : DB
  cookie : Option String
  name : Option String
  email : Option String
deriving DecidableEq, Repr

/-- Embeds `userSignUp` from the user controllers: `findOne({email})`,
409 on an existing user, otherwise hash the password, save the new user,
mint a token and set it as the auth cookie. The bcrypt hash and
`createToken` are passed as functions since they are external to the
handler. -/
def userSignUp (hash : String → String) (mkToken : Nat → String → String)
    (db : DB) (name email password : String) (freshId : Nat) : SignUpResult :=
  match db.users.find? (fun u => u.email == email) with
  | some _ => ⟨409, "ERROR", some "User already exists", db, none, none, none⟩
  | none =>
    let user : User := ⟨freshId, name, email, hash password, []⟩
    let token := mkToken user.id user.email
    ⟨201, "OK", none, { db with users := db.users ++ [user] }, some token, some user.name, some user.email⟩

/-- Reachable database states over the session lifecycle, paired with a
monotone wall clock: the store starts empty and evolves through the session
handlers, each running at a time no earlier than the previous one. -/
inductive Reachable : DB → Nat → Prop where
  | init : Reachable ⟨[], []⟩ 0
  | tick {db t} (t' : Nat) : Reachable db t → t ≤ t' → Reachable db t'
  | stepCreate {db t} (uid : Nat) (title : Option String) (freshId : Nat) :
      Reachable db t → Reachable (createChatSession db (some uid) title freshId t).db t
  | stepAdd {db t} (uid sid : Nat) (msg : String)
      (upstream : Except UpstreamErr (Option String)) :
      Reachable db t → Reachable (addMessageToChatSession db (some uid) sid msg upstream t).db t
  | stepDelete {db t} (uid sid : Nat) :
      Reachable db t → Reachable (deleteChatSessionById db (some uid) sid).db t

/-- Concrete verifier fixture: accepts exactly the token `"tok123"`. -/
def verifyStub : String → Except String JwtPayload :=
  fun t => if t = "tok123" then .ok ⟨7, "ann@x.com"⟩ else .error "JWT verification failed: invalid signature"

/-- Whether no chat message is stored anywhere in the database, neither in
a session nor in a legacy user log. -/
def dbHasNoMessages (db : DB) : Bool :=
  db.sessions.all (fun s => s.messages.isEmpty) && db.users.all (fun u => u.chats.isEmpty)

/-- Fixture user. -/
def userAnn : User := ⟨1, "Ann", "ann@x.com", "hashedpw", []⟩

/-- Fixture session owned by user 1, freshly created. -/
def sessionNew : ChatSession := ⟨10, 1, "New Chat", [], 0, 0⟩

/-- Fixture database: user 1 with one empty session. -/
def dbAnn : DB := ⟨[userAnn], [sessionNew]⟩

/-- Fixture session owned by user 2. -/
def sessionOfUser2 : ChatSession := ⟨10, 2, "Topic", [], 0, 0⟩

/-- Fixture database where the only session belongs to user 2. -/
def dbOther : DB := ⟨[userAnn], [sessionOfUser2]⟩

/-- Fixture database with three sessions of two users and distinct
`updatedAt` values. -/
def dbThree : DB := ⟨[], [⟨10, 1, "a", [], 0, 3⟩, ⟨11, 1, "b", [], 0, 7⟩, ⟨12, 2, "c", [], 0, 9⟩]⟩

/-- Helper: a successful scoped lookup only returns a session with the
requested id that is owned by the requesting user. -/
theorem findSession_eq_some {db : DB} {sid uid : Nat} {s : ChatSession}
    (h : findSession db sid uid = some s) :
    s.id = sid ∧ s.userId = uid ∧ s ∈ db.sessions := by
  unfold findSession at h
  have hp := List.find?_some h
  have hm := List.mem_of_find?_eq_some h
  simp only [Bool.and_eq_true, beq_iff_eq] at hp
  exact ⟨hp.1, hp.2, hm⟩

/-- Helper: when every session with the requested id belongs to `b`, a
lookup scoped to a different user `a` finds nothing. -/
theorem findSession_eq_none {db : DB} {sid a b : Nat}
    (hab : a ≠ b) (hown : ∀ s ∈ db.sessions, s.id = sid → s.userId = b) :
    findSession db sid a = none := by
  unfold findSession
  rw [List.find?_eq_none]
  intro s hs hp
  simp only [Bool.and_eq_true, beq_iff_eq] at hp
  exact hab (by rw [← hp.2, hown s hs hp.1])

/-- C2: for distinct users `a` and `b`, when every stored session carrying
the requested id belongs to `b`, both `getChatSessionById` and
`deleteChatSessionById` invoked as `a` fail with 404, return no session
data and delete nothing; moreover any session the scoped lookup does
return carries the requested id and is owned by the caller. -/
theorem cross_user_session_access_denied
    (db : DB) (a b sid : Nat) (hab : a ≠ b)
    (hown : ∀ s ∈ db.sessions, s.id = sid → s.userId = b) :
    (getChatSessionById db (some a) sid).status = 404 ∧
    (getChatSessionById db (some a) sid).session = none ∧
    (deleteChatSessionById db (some a) sid).status = 404 ∧
    (deleteChatSessionById db (some a) sid).db = db ∧
    (∀ u s, (getChatSessionById db (some u) sid).session = some s →
      s.id = sid ∧ s.userId = u) := by
  have hnone := findSession_eq_none hab hown
  refine ⟨?_, ?_, ?_, ?_, ?_⟩
  · simp [getChatSessionById, hnone]
  · simp [getChatSessionById, hnone]
  · simp [deleteChatSessionById, hnone]
  · simp [deleteChatSessionById, hnone]
  · intro u s h
    cases hf : findSession db sid u with
    | none => simp [getChatSessionById, hf] at h
    | some t =>
      have ht : t = s := by simpa [getChatSessionById, hf] using h
      obtain ⟨h1, h2, _⟩ := findSession_eq_some hf
      exact ⟨ht ▸ h1, ht ▸ h2⟩

/-- Witness for C2 at a concrete store: user 1 requesting user 2's session. -/
theorem cross_user_session_access_denied_witness :
    (getChatSessionById dbOther (some 1) 10).status = 404 ∧
    (getChatSessionById dbOther (some 1) 10).session = none ∧
    (deleteChatSessionById dbOther (some 1) 10).db = dbOther := by
  have h := cross_user_session_access_denied dbOther 1 2 10 (by decide) (by decide)
  exact ⟨h.1, h.2.1, h.2.2.2.1⟩

/-- C4: signup with an email that already belongs to an existing user fails
with HTTP 409 and cause "User already exists", leaves the user collection
unchanged, and issues no token cookie. -/
theorem userSignUp_duplicate_email_rejected
    (hash : String → String) (mkToken : Nat → String → String)
    (db : DB) (name email password : String) (freshId : Nat)
    (hdup : ∃ u ∈ db.users, u.email = email) :
    (userSignUp hash mkToken db name email password freshId).status = 409 ∧
    (userSignUp hash mkToken db name email password freshId).cause = some "User already exists" ∧
    (userSignUp hash mkToken db name email password freshId).db = db ∧
    (userSignUp hash mkToken db name email password freshId).cookie = none := by
  obtain ⟨u, hu, he⟩ := hdup
  have hsome : (db.users.find? (fun u => u.email == email)).isSome := by
    rw [List.find?_isSome]
    exact ⟨u, hu, by simp [he]⟩
  unfold userSignUp
  cases hfind : db.users.find? (fun u => u.email == email) with
  | none => rw [hfind] at hsome; simp at hsome
  | some v => simp

/-- Witness for C4: signing up again with Ann's email. -/
theorem userSignUp_duplicate_email_rejected_witness :
    (userSignUp id (fun _ _ => "tok123") dbAnn "Bob" "ann@x.com" "pw" 2).status = 409 ∧
    (userSignUp id (fun _ _ => "tok123") dbAnn "Bob" "ann@x.com" "pw" 2).db = dbAnn ∧
    (userSignUp id (fun _ _ => "tok123") dbAnn "Bob" "ann@x.com" "pw" 2).cookie = none := by
  have h := userSignUp_duplicate_email_rejected id (fun _ _ => "tok123") dbAnn "Bob" "ann@x.com" "pw" 2
    ⟨userAnn, by decide, by decide⟩
  exact ⟨h.1, h.2.2.1, h.2.2.2⟩

/-- C8: an authenticated create-session request yields HTTP 201 and a
session whose message list is empty and whose title is the supplied title
when that is a non-empty string, and "New Chat" when the title is absent
or empty. -/
theorem createChatSession_title_and_empty_messages
    (db : DB) (uid : Nat) (title : Option String) (freshId now : Nat) :
    (createChatSession db (some uid) title freshId now).status = 201 ∧
    ∃ s, (createChatSession db (some uid) title freshId now).session = some s ∧
      s.messages = [] ∧
      (∀ t, title = some t → t ≠ "" → s.title = t) ∧
      (title = none → s.title = "New Chat") ∧
      (title = some "" → s.title = "New Chat") := by
  refine ⟨rfl, saveSession (newChatSession uid (titleOrDefault title) freshId now) now, rfl, rfl, ?_, ?_, ?_⟩
  · intro t ht hne
    subst ht
    simp [saveSession, newChatSession, titleOrDefault, hne]
  · intro ht
    subst ht
    simp [saveSession, newChatSession, titleOrDefault]
  · intro ht
    subst ht
    simp [saveSession, newChatSession, titleOrDefault]

/-- Witness for C8 at concrete titles. -/
theorem createChatSession_title_and_empty_messages_witness :
    (createChatSession ⟨[], []⟩ (some 1) (some "Trip plan") 10 0).status = 201 ∧
    (createChatSession ⟨[], []⟩ (some 1) (some "Trip plan") 10 0).session =
      some ⟨10, 1, "Trip plan", [], 0, 0⟩ ∧
    (createChatSession ⟨[], []⟩ (some 1) (some "") 10 0).session =
      some ⟨10, 1, "New Chat", [], 0, 0⟩ ∧
    (createChatSession ⟨[], []⟩ (some 1) none 10 0).session =
      some ⟨10, 1, "New Chat", [], 0, 0⟩ := by
  refine ⟨(createChatSession_title_and_empty_messages ⟨[], []⟩ 1 (some "Trip plan") 10 0).1,
    by decide, by decide, by decide⟩

/-- Counterexample to C6: a request carrying no signed cookie and no
authorization header, only a plain unsigned cookie holding a valid token,
does not fail 401 — the middleware authenticates it, so the claim that the
request fails Unauthenticated whenever neither the signed cookie nor the
Bearer header yields a token is false on the code. -/
theorem verifyToken_unsigned_cookie_authenticates_counterexample :
    (⟨none, some "tok123", none⟩ : AuthReq).signedCookie = none ∧
    tokenFromHeader ⟨none, some "tok123", none⟩ = none ∧
    verifyToken verifyStub ⟨none, some "tok123", none⟩ = .authenticated ⟨7, "ann@x.com"⟩ := by
  decide

/-- C6 as amended: the candidate token is selected by priority from the
signed cookie, then the plain unsigned cookie of the same name, then the
Bearer header; if no source yields a (non-empty) token the middleware
answers 401 "No authentication token provided" for every verifier, i.e.
without consulting it; otherwise the selected token is verified, a failure
propagates the verifier's cause as a 401, and a success attaches the
decoded payload to the downstream context. -/
theorem verifyToken_source_priority_and_errors
    (verify : String → Except String JwtPayload) (req : AuthReq) :
    (∀ v, req.signedCookie = some v → tokenFromCookie req = some v) ∧
    (req.signedCookie = none → tokenFromCookie req = req.plainCookie) ∧
    (jsFalsy (tokenFromCookie req) = true → requestToken req = tokenFromHeader req) ∧
    (jsFalsy (tokenFromCookie req) = false → requestToken req = tokenFromCookie req) ∧
    (jsFalsy (requestToken req) = true →
      verifyToken verify req = .unauthenticated "No authentication token provided") ∧
    (∀ t, requestToken req = some t → t ≠ "" →
      (∀ p, verify t = .ok p → verifyToken verify req = .authenticated p) ∧
      (∀ e, verify t = .error e → verifyToken verify req = .unauthenticated e)) := by
  refine ⟨?_, ?_, ?_, ?_, ?_, ?_⟩
  · intro v hv; simp [tokenFromCookie, hv]
  · intro hv; simp [tokenFromCookie, hv]
  · intro hfalsy; simp [requestToken, jsOr, hfalsy]
  · intro hfalsy; simp [requestToken, jsOr, hfalsy]
  · intro hfalsy
    unfold verifyToken
    cases ht : requestToken req with
    | none => rfl
    | some t =>
      rw [ht] at hfalsy
      simp only [jsFalsy, decide_eq_true_eq] at hfalsy
      simp [hfalsy]
  · intro t ht hne
    constructor
    · intro p hp; simp [verifyToken, ht, hne, hp]
    · intro e hp; simp [verifyToken, ht, hne, hp]

/-- Witness for the amended C6: an empty request is rejected without the
verifier, a signed cookie with a valid token authenticates. -/
theorem verifyToken_source_priority_and_errors_witness :
    verifyToken verifyStub ⟨none, none, none⟩ =
      .unauthenticated "No authentication token provided" ∧
    verifyToken verifyStub ⟨some "tok123", none, none⟩ = .authenticated ⟨7, "ann@x.com"⟩ ∧
    verifyToken verifyStub ⟨some "badtok", none, none⟩ =
      .unauthenticated "JWT verification failed: invalid signature" := by
  refine ⟨(verifyToken_source_priority_and_errors verifyStub ⟨none, none, none⟩).2.2.2.2.1 (by decide),
    ((verifyToken_source_priority_and_errors verifyStub ⟨some "tok123", none, none⟩).2.2.2.2.2
      "tok123" (by decide) (by decide)).1 ⟨7, "ann@x.com"⟩ rfl,
    ((verifyToken_source_priority_and_errors verifyStub ⟨some "badtok", none, none⟩).2.2.2.2.2
      "badtok" (by decide) (by decide)).2
      "JWT verification failed: invalid signature" rfl⟩

/-- C9: when the signed cookie is absent, a plain unsigned cookie of the
configured name is accepted as the token source before the Bearer header,
and a valid token presented that way authenticates exactly as a signed
cookie does — for every header value and every verifier. -/
theorem verifyToken_plain_cookie_accepted
    (verify : String → Except String JwtPayload) (t : String) (p : JwtPayload)
    (hdr : Option String) (hne : t ≠ "") (hv : verify t = .ok p) :
    verifyToken verify ⟨none, some t, hdr⟩ = .authenticated p ∧
    verifyToken verify ⟨some t, none, hdr⟩ = .authenticated p := by
  constructor <;>
    simp [verifyToken, requestToken, tokenFromCookie, jsOr, jsFalsy, hne, hv]

/-- Witness for C9 with a concrete verifier and a Bearer header also
present: the unsigned cookie wins. -/
theorem verifyToken_plain_cookie_accepted_witness :
    verifyToken verifyStub ⟨none, some "tok123", some "Bearer other"⟩ =
      .authenticated ⟨7, "ann@x.com"⟩ ∧
    verifyToken verifyStub ⟨some "tok123", none, some "Bearer other"⟩ =
      .authenticated ⟨7, "ann@x.com"⟩ := by
  exact verifyToken_plain_cookie_accepted verifyStub "tok123" ⟨7, "ann@x.com"⟩
    (some "Bearer other") (by decide) rfl

/-- Helper: a saved session stays in the store after a write-back when the
original document was stored and the saved document keeps its id. -/
theorem mem_persistSession_self {db : DB} {sess : ChatSession} (s' : ChatSession)
    (hmem : sess ∈ db.sessions) (hid : s'.id = sess.id) :
    s' ∈ (persistSession db s').sessions := by
  show s' ∈ db.sessions.map (fun t => if t.id == s'.id then s' else t)
  simp only [List.mem_map]
  exact ⟨sess, hmem, by simp [hid]⟩

/-- Helper: the success path of `addMessageToChatSession` answers 200 and
persists the session with the user message appended, followed by the
assistant message exactly when the trimmed upstream content is non-empty. -/
theorem addMessage_upstream_ok
    (db : DB) (uid sid : Nat) (msg : String) (content : Option String) (now : Nat)
    (sess : ChatSession) (hfind : findSession db sid uid = some sess) :
    (addMessageToChatSession db (some uid) sid msg (.ok content) now).status = 200 ∧
    ∃ s', (addMessageToChatSession db (some uid) sid msg (.ok content) now).session = some s' ∧
      s' ∈ (addMessageToChatSession db (some uid) sid msg (.ok content) now).db.sessions ∧
      s'.messages = sess.messages ++ [⟨.user, msg, now⟩] ++
        (if assistantContentOf content = "" then []
         else [⟨.assistant, assistantContentOf content, now⟩]) := by
  obtain ⟨hid, huid, hmem⟩ := findSession_eq_some hfind
  by_cases hc : assistantContentOf content = ""
  · refine ⟨by simp [addMessageToChatSession, hfind, hc],
      saveSession { sess with messages := sess.messages ++ [⟨.user, msg, now⟩] } now,
      by simp [addMessageToChatSession, hfind, hc], ?_, by simp [saveSession, hc]⟩
    have hms := mem_persistSession_self
      (saveSession { sess with messages := sess.messages ++ [⟨.user, msg, now⟩] } now) hmem rfl
    simpa [addMessageToChatSession, hfind, hc] using hms
  · refine ⟨by simp [addMessageToChatSession, hfind, hc],
      saveSession { sess with messages := (sess.messages ++ [⟨.user, msg, now⟩]) ++
        [⟨.assistant, assistantContentOf content, now⟩] } now,
      by simp [addMessageToChatSession, hfind, hc], ?_, by simp [saveSession, hc]⟩
    have hms := mem_persistSession_self
      (saveSession { sess with messages := (sess.messages ++ [⟨.user, msg, now⟩]) ++
        [⟨.assistant, assistantContentOf content, now⟩] } now) hmem rfl
    simpa [addMessageToChatSession, hfind, hc] using hms

/-- Helper: on upstream failure neither handler writes anything back. -/
theorem upstream_failure_leaves_db
    (db : DB) (auth : Option Nat) (sid : Nat) (msg : String) (e : UpstreamErr) (now : Nat) :
    (addMessageToChatSession db auth sid msg (.error e) now).db = db ∧
    (generateChatCompletion db auth msg (.error e) now).db = db := by
  constructor
  · cases auth with
    | none => rfl
    | some u =>
      cases hf : findSession db sid u with
      | none => simp [addMessageToChatSession, hf]
      | some t => simp [addMessageToChatSession, hf]
  · cases auth with
    | none => rfl
    | some u =>
      cases hf : findUser db u with
      | none => simp [generateChatCompletion, hf]
      | some t => simp [generateChatCompletion, hf]

/-- Counterexample to C1: user 1 owns the empty session 10; appending
"hello" while the upstream completion call fails yields a 500 response and
leaves the store exactly as it was, with no message stored anywhere — the
user message was not persisted before the upstream call was attempted. The
legacy `generateChatCompletion` flow loses the message the same way. -/
theorem user_message_lost_on_upstream_failure_counterexample :
    (addMessageToChatSession dbAnn (some 1) 10 "hello" (.error ⟨none, "network error"⟩) 5).status = 500 ∧
    (addMessageToChatSession dbAnn (some 1) 10 "hello" (.error ⟨none, "network error"⟩) 5).db = dbAnn ∧
    (generateChatCompletion dbAnn (some 1) "hello" (.error ⟨none, "network error"⟩) 5).status = 500 ∧
    (generateChatCompletion dbAnn (some 1) "hello" (.error ⟨none, "network error"⟩) 5).db = dbAnn ∧
    dbHasNoMessages dbAnn = true := by
  decide

/-- C1 as amended: the user message is appended only to the in-memory
document before the upstream call; both handlers persist nothing when the
upstream call fails, so the submitted message is lost, and only a
successful call persists the session, which then holds the user message
followed by the assistant message exactly when the trimmed content is
non-empty. -/
theorem user_message_persisted_only_on_upstream_success
    (db : DB) (auth : Option Nat) (uid sid : Nat) (msg : String) (e : UpstreamErr)
    (content : Option String) (now : Nat) (sess : ChatSession)
    (hfind : findSession db sid uid = some sess) :
    (addMessageToChatSession db auth sid msg (.error e) now).db = db ∧
    (generateChatCompletion db auth msg (.error e) now).db = db ∧
    (∃ s', (addMessageToChatSession db (some uid) sid msg (.ok content) now).session = some s' ∧
      s' ∈ (addMessageToChatSession db (some uid) sid msg (.ok content) now).db.sessions ∧
      s'.messages = sess.messages ++ [⟨.user, msg, now⟩] ++
        (if assistantContentOf content = "" then []
         else [⟨.assistant, assistantContentOf content, now⟩])) := by
  obtain ⟨h1, h2⟩ := upstream_failure_leaves_db db auth sid msg e now
  exact ⟨h1, h2, (addMessage_upstream_ok db uid sid msg content now sess hfind).2⟩

/-- Witness for the amended C1 at a concrete store and the successful
completion "hi there". -/
theorem user_message_persisted_only_on_upstream_success_witness :
    (addMessageToChatSession dbAnn (some 1) 10 "hello" (.error ⟨none, "network error"⟩) 5).db = dbAnn ∧
    (generateChatCompletion dbAnn (some 1) "hello" (.error ⟨none, "network error"⟩) 5).db = dbAnn ∧
    (addMessageToChatSession dbAnn (some 1) 10 "hello" (.ok (some "hi there")) 5).session =
      some ⟨10, 1, "New Chat", [⟨.user, "hello", 5⟩, ⟨.assistant, "hi there", 5⟩], 0, 5⟩ := by
  have h := user_message_persisted_only_on_upstream_success dbAnn (some 1) 1 10 "hello"
    ⟨none, "network error"⟩ (some "hi there") 5 sessionNew (by decide)
  exact ⟨h.1, h.2.1, by decide⟩

/-- Counterexample to C3: with an empty user collection and a still-valid
token for user id 1, `createChatSession` succeeds with 201 and stores a
session whose `userId` references no existing user — an orphaned session
is creatable. -/
theorem orphan_session_creatable_counterexample :
    (createChatSession ⟨[], []⟩ (some 1) none 10 0).status = 201 ∧
    (createChatSession ⟨[], []⟩ (some 1) none 10 0).db.users = [] ∧
    (createChatSession ⟨[], []⟩ (some 1) none 10 0).db.sessions =
      [⟨10, 1, "New Chat", [], 0, 0⟩] := by
  decide

/-- C3 as amended: `createChatSession` performs no user-existence check —
for every store, including one without any record for the token's user id,
it succeeds with 201, leaves the user collection untouched and appends a
session owned by the token's id, so sessions whose `userId` references no
existing User are creatable. -/
theorem createChatSession_no_user_existence_check
    (db : DB) (uid : Nat) (title : Option String) (freshId now : Nat) :
    (createChatSession db (some uid) title freshId now).status = 201 ∧
    (createChatSession db (some uid) title freshId now).db.users = db.users ∧
    ∃ s, (createChatSession db (some uid) title freshId now).db.sessions = db.sessions ++ [s] ∧
      s.userId = uid := by
  exact ⟨rfl, rfl, saveSession (newChatSession uid (titleOrDefault title) freshId now) now, rfl, rfl⟩

/-- C10: when the upstream call succeeds but its content trims to the empty
string, the handler appends no assistant message, still persists the
session now containing the newly appended user message, and answers 200 —
the stored message count grows by one instead of two. -/
theorem empty_completion_keeps_user_message_only
    (db : DB) (uid sid : Nat) (msg content : String) (now : Nat) (sess : ChatSession)
    (hfind : findSession db sid uid = some sess)
    (hempty : jsTrim content = "") :
    (addMessageToChatSession db (some uid) sid msg (.ok (some content)) now).status = 200 ∧
    ∃ s', (addMessageToChatSession db (some uid) sid msg (.ok (some content)) now).session = some s' ∧
      s' ∈ (addMessageToChatSession db (some uid) sid msg (.ok (some content)) now).db.sessions ∧
      s'.messages = sess.messages ++ [⟨.user, msg, now⟩] ∧
      s'.messages.length = sess.messages.length + 1 := by
  have hc : assistantContentOf (some content) = "" := hempty
  obtain ⟨h200, s', hs, hmem, hmsgs⟩ := addMessage_upstream_ok db uid sid msg (some content) now sess hfind
  rw [hc] at hmsgs
  simp at hmsgs
  exact ⟨h200, s', hs, hmem, hmsgs, by simp [hmsgs]⟩

/-- Witness for C10: a whitespace-only completion at a concrete store. -/
theorem empty_completion_keeps_user_message_only_witness :
    (addMessageToChatSession dbAnn (some 1) 10 "hello" (.ok (some "   ")) 5).status = 200 ∧
    (addMessageToChatSession dbAnn (some 1) 10 "hello" (.ok (some "   ")) 5).session =
      some ⟨10, 1, "New Chat", [⟨.user, "hello", 5⟩], 0, 5⟩ := by
  have h := empty_completion_keeps_user_message_only dbAnn 1 10 "hello" "   " 5 sessionNew
    (by decide) (by decide)
  exact ⟨h.1, by decide⟩

/-- C7: `getChatSessions` answers 200 for every authenticated user and its
list contains exactly the summaries of that user's sessions, pairwise
sorted by `updatedAt` descending, each projected to the summary fields id,
title, createdAt and updatedAt — the `SessionSummary` shape carries no
messages field, so message bodies are never included. -/
theorem list_sessions_sorted_and_projected (db : DB) (uid : Nat) :
    (getChatSessions db (some uid)).status = 200 ∧
    ∀ out, (getChatSessions db (some uid)).sessions = some out →
      out.Pairwise (fun a b => b.updatedAt ≤ a.updatedAt) ∧
      (∀ x ∈ out, ∃ s ∈ db.sessions, s.userId = uid ∧ x = toSummary s) ∧
      (∀ s ∈ db.sessions, s.userId = uid → toSummary s ∈ out) := by
  refine ⟨rfl, ?_⟩
  intro out hout
  have hout' : listSessionSummaries db uid = out := by
    simpa [getChatSessions] using hout
  subst hout'
  haveI htotal : IsTotal ChatSession (fun a b => b.updatedAt ≤ a.updatedAt) :=
    ⟨fun a b => Nat.le_total b.updatedAt a.updatedAt⟩
  haveI htrans : IsTrans ChatSession (fun a b => b.updatedAt ≤ a.updatedAt) :=
    ⟨fun _ _ _ hab hbc => le_trans hbc hab⟩
  refine ⟨?_, ?_, ?_⟩
  · unfold listSessionSummaries
    rw [List.pairwise_map]
    exact List.sorted_insertionSort (fun a b => b.updatedAt ≤ a.updatedAt)
      (db.sessions.filter (fun s => s.userId == uid))
  · intro x hx
    unfold listSessionSummaries at hx
    obtain ⟨s, hs, hxs⟩ := List.mem_map.mp hx
    rw [List.mem_insertionSort] at hs
    obtain ⟨hmem, hp⟩ := List.mem_filter.mp hs
    exact ⟨s, hmem, by simpa using hp, hxs.symm⟩
  · intro s hs hu
    unfold listSessionSummaries
    exact List.mem_map_of_mem toSummary
      ((List.mem_insertionSort _).mpr (List.mem_filter.mpr ⟨hs, by simp [hu]⟩))

/-- Witness for C7 at a concrete store with three sessions of two users. -/
theorem list_sessions_sorted_and_projected_witness :
    (getChatSessions dbThree (some 1)).status = 200 ∧
    (getChatSessions dbThree (some 1)).sessions =
      some [⟨11, "b", 0, 7⟩, ⟨10, "a", 0, 3⟩] ∧
    toSummary ⟨10, 1, "a", [], 0, 3⟩ ∈ [(⟨11, "b", 0, 7⟩ : SessionSummary), ⟨10, "a", 0, 3⟩] := by
  have h := list_sessions_sorted_and_projected dbThree 1
  refine ⟨h.1, by decide, ?_⟩
  exact (h.2 [⟨11, "b", 0, 7⟩, ⟨10, "a", 0, 3⟩] (by decide)).2.2
    ⟨10, 1, "a", [], 0, 3⟩ (by decide) (by decide)

/-- Helper: erasing the first match never adds sessions. -/
theorem mem_of_mem_eraseFirst {p : ChatSession → Bool} {l : List ChatSession} {x : ChatSession}
    (h : x ∈ eraseFirst p l) : x ∈ l := by
  induction l with
  | nil => simp [eraseFirst] at h
  | cons y ys ih =>
    by_cases hp : p y
    · rw [eraseFirst, if_pos hp] at h
      exact List.mem_cons_of_mem _ h
    · rw [eraseFirst, if_neg hp] at h
      rcases List.mem_cons.mp h with h | h
      · exact h ▸ List.mem_cons_self _ _
      · exact List.mem_cons_of_mem _ (ih h)

/-- Helper: after a write-back, a stored session is either the saved
document or one of the previously stored documents. -/
theorem persistSession_mem_cases {db : DB} {s' x : ChatSession}
    (hx : x ∈ (persistSession db s').sessions) : x = s' ∨ x ∈ db.sessions := by
  have hx' : x ∈ db.sessions.map (fun t => if t.id == s'.id then s' else t) := hx
  obtain ⟨y, hy, hfy⟩ := List.mem_map.mp hx'
  by_cases hc : (y.id == s'.id) = true
  · rw [if_pos hc] at hfy
    exact Or.inl hfy.symm
  · rw [if_neg hc] at hfy
    exact Or.inr (hfy ▸ hy)

/-- Helper: in every reachable store every stored session satisfies
`createdAt ≤ updatedAt`, and both timestamps are bounded by the clock. -/
theorem reachable_session_bounds {db : DB} {t : Nat} (h : Reachable db t) :
    ∀ s ∈ db.sessions, s.createdAt ≤ s.updatedAt ∧ s.updatedAt ≤ t := by
  induction h with
  | init => intro s hs; simp at hs
  | tick t' _ hle ih =>
    intro s hs
    exact ⟨(ih s hs).1, le_trans (ih s hs).2 hle⟩
  | stepCreate uid title freshId _ ih =>
    intro s hs
    rw [show (createChatSession _ (some uid) title freshId _).db.sessions =
      _ ++ [saveSession (newChatSession uid (titleOrDefault title) freshId _) _] from rfl] at hs
    rcases List.mem_append.mp hs with hs | hs
    · exact ih s hs
    · rw [List.mem_singleton.mp hs]
      exact ⟨le_refl _, le_refl _⟩
  | stepAdd uid sid msg upstream _ ih =>
    rename_i db' t' _
    intro s hs
    cases hf : findSession db' sid uid with
    | none =>
      rw [show (addMessageToChatSession db' (some uid) sid msg upstream t').db = db' by
        simp [addMessageToChatSession, hf]] at hs
      exact ih s hs
    | some sess =>
      have hsess := ih sess (findSession_eq_some hf).2.2
      cases upstream with
      | error e =>
        rw [show (addMessageToChatSession db' (some uid) sid msg (.error e) t').db = db' by
          simp [addMessageToChatSession, hf]] at hs
        exact ih s hs
      | ok content =>
        by_cases hc : assistantContentOf content = ""
        · rw [show (addMessageToChatSession db' (some uid) sid msg (.ok content) t').db =
            persistSession db' (saveSession
              { sess with messages := sess.messages ++ [⟨.user, msg, t'⟩] } t') by
            simp [addMessageToChatSession, hf, hc]] at hs
          rcases persistSession_mem_cases hs with hs | hs
          · rw [hs]
            exact ⟨le_trans hsess.1 hsess.2, le_refl _⟩
          · exact ih s hs
        · rw [show (addMessageToChatSession db' (some uid) sid msg (.ok content) t').db =
            persistSession db' (saveSession
              { sess with messages := (sess.messages ++ [⟨.user, msg, t'⟩]) ++
                [⟨.assistant, assistantContentOf content, t'⟩] } t') by
            simp [addMessageToChatSession, hf, hc]] at hs
          rcases persistSession_mem_cases hs with hs | hs
          · rw [hs]
            exact ⟨le_trans hsess.1 hsess.2, le_refl _⟩
          · exact ih s hs
  | stepDelete uid sid _ ih =>
    rename_i db' t' _
    intro s hs
    cases hf : findSession db' sid uid with
    | none =>
      rw [show (deleteChatSessionById db' (some uid) sid).db = db' by
        simp [deleteChatSessionById, hf]] at hs
      exact ih s hs
    | some sess =>
      rw [show (deleteChatSessionById db' (some uid) sid).db.sessions =
        eraseFirst (fun s => s.id == sid && s.userId == uid) db'.sessions by
        simp [deleteChatSessionById, hf]] at hs
      exact ih s (mem_of_mem_eraseFirst hs)

/-- C5: every persist refreshes `updatedAt` to the save time; in every
store reachable through the session operations under a monotone clock,
every stored session satisfies `createdAt ≤ updatedAt`; and re-persisting
a stored session at any later clock value never decreases its
`updatedAt`. -/
theorem chatSession_updatedAt_invariants :
    (∀ (s : ChatSession) (now : Nat), (saveSession s now).updatedAt = now) ∧
    (∀ (db : DB) (t : Nat), Reachable db t → ∀ s ∈ db.sessions,
      s.createdAt ≤ s.updatedAt ∧ s.updatedAt ≤ t) ∧
    (∀ (db : DB) (t t' : Nat) (s : ChatSession), Reachable db t → s ∈ db.sessions → t ≤ t' →
      s.updatedAt ≤ (saveSession s t').updatedAt) := by
  refine ⟨fun s now => rfl, fun db t h => reachable_session_bounds h, ?_⟩
  intro db t t' s h hs hle
  exact le_trans (reachable_session_bounds h s hs).2 hle

/-- Witness for C5: a store created at clock 3, its session re-persisted
at clock 9. -/
theorem chatSession_updatedAt_invariants_witness :
    (saveSession ⟨10, 1, "New Chat", [], 3, 3⟩ 9).updatedAt = 9 ∧
    (⟨10, 1, "New Chat", [], 3, 3⟩ : ChatSession).createdAt ≤
      (⟨10, 1, "New Chat", [], 3, 3⟩ : ChatSession).updatedAt ∧
    (⟨10, 1, "New Chat", [], 3, 3⟩ : ChatSession).updatedAt ≤
      (saveSession ⟨10, 1, "New Chat", [], 3, 3⟩ 9).updatedAt := by
  have hreach : Reachable (createChatSession (⟨[], []⟩ : DB) (some 1) none 10 3).db 3 :=
    Reachable.stepCreate 1 none 10 (Reachable.tick 3 Reachable.init (Nat.zero_le 3))
  refine ⟨chatSession_updatedAt_invariants.1 ⟨10, 1, "New Chat", [], 3, 3⟩ 9, ?_, ?_⟩
  · exact (chatSession_updatedAt_invariants.2.1 _ 3 hreach
      ⟨10, 1, "New Chat", [], 3, 3⟩ (by decide)).1
  · exact chatSession_updatedAt_invariants.2.2 _ 3 9
      ⟨10, 1, "New Chat", [], 3, 3⟩ hreach (by decide) (by decide)

end QuantumBot
